import Mathlib

/-!
Verification of the NeuralDrift shared shader-type contract.

The embedding follows src/Shared/Renderer/ShaderTypes.h: buffer and vertex
attribute indices, the positional-encoding and network-size constants, the
two weight-count totals, and the field layouts of the shared CPU/GPU records.
The header declares layout only; the positional encoder, weight-buffer
loader and scene-state aggregator are modelled from the spec where noted.
-/

namespace NeuralDrift

/-! ### Constants from ShaderTypes.h -/

def BufferIndexVertices : Nat := 0

def BufferIndexUniforms : Nat := 1

def BufferIndexTerrainWeights : Nat := 2

def BufferIndexColorWeights : Nat := 3

def BufferIndexPlayerState : Nat := 4

def BufferIndexResonance : Nat := 5

def VertexAttributePosition : Nat := 0

def VertexAttributeTexcoord : Nat := 1

def POS_ENCODE_BANDS : Nat := 3

def POS_ENCODE_PER_COORD : Nat := 7

def TERRAIN_INPUT_SIZE : Nat := 16

def TERRAIN_HIDDEN1_SIZE : Nat := 32

def TERRAIN_HIDDEN2_SIZE : Nat := 32

def TERRAIN_OUTPUT_SIZE : Nat := 4

def COLOR_INPUT_SIZE : Nat := 28

def COLOR_HIDDEN1_SIZE : Nat := 24

def COLOR_HIDDEN2_SIZE : Nat := 24

def COLOR_OUTPUT_SIZE : Nat := 3

def TERRAIN_WEIGHT_COUNT : Nat := 1732

def COLOR_WEIGHT_COUNT : Nat := 1371

def MAX_RESONANCE_ORBS : Nat := 5

/-! ### Weight-count arithmetic (layer topology) -/

/-- Parameter count of one dense layer: an `in × out` weight matrix plus an
`out`-element bias vector, as described by the header comments. -/
def layerParamCount (io : Nat × Nat) : Nat := io.1 * io.2 + io.2

/-- Total parameter count of a network given its list of layer shapes. -/
def networkParamCount (layers : List (Nat × Nat)) : Nat :=
  (layers.map layerParamCount).sum

/-- Layer shapes of the terrain network, from the header constants. -/
def terrainLayerShapes : List (Nat × Nat) :=
  [(TERRAIN_INPUT_SIZE, TERRAIN_HIDDEN1_SIZE),
   (TERRAIN_HIDDEN1_SIZE, TERRAIN_HIDDEN2_SIZE),
   (TERRAIN_HIDDEN2_SIZE, TERRAIN_OUTPUT_SIZE)]

/-- Layer shapes of the color network, from the header constants. -/
def colorLayerShapes : List (Nat × Nat) :=
  [(COLOR_INPUT_SIZE, COLOR_HIDDEN1_SIZE),
   (COLOR_HIDDEN1_SIZE, COLOR_HIDDEN2_SIZE),
   (COLOR_HIDDEN2_SIZE, COLOR_OUTPUT_SIZE)]

/-! ### Positional encoder -/

/-- Modelled from the spec: the positional encoder (the header declares only
`POS_ENCODE_BANDS` and `POS_ENCODE_PER_COORD` with a comment giving the
feature order). Given sinusoid functions `s`, `c` (abstracting sin and cos),
a band count `B` and a scalar coordinate `x`, it produces the raw value
followed, for each band `k` in `0..B-1`, by `s (2^k * x)` then
`c (2^k * x)`. -/
def posEncode (s c : ℚ → ℚ) (B : Nat) (x : ℚ) : List ℚ :=
  x :: (List.range B).flatMap (fun k => [s (2 ^ k * x), c (2 ^ k * x)])

/-- Constant-zero function, standing in for sin at a witness evaluation. -/
def zeroFn : ℚ → ℚ := fun _ => 0

/-- Constant-one function, standing in for cos at a witness evaluation. -/
def oneFn : ℚ → ℚ := fun _ => 1

/-! ### Network input assembly -/

/-- Modelled from the spec: the terrain network input vector, matching the
header comment `posEncode(x,z)=14 + time(1) + playerInfluence(1) = 16`. -/
def terrainInput (s c : ℚ → ℚ) (x z time playerInfluence : ℚ) : List ℚ :=
  posEncode s c POS_ENCODE_BANDS x ++ posEncode s c POS_ENCODE_BANDS z
    ++ [time] ++ [playerInfluence]

/-- Output components of the terrain network, from the header comment
`Output: (height, normalX, normalY, normalZ) = 4`. -/
def terrainOutputComponents : List String :=
  ["height", "normalX", "normalY", "normalZ"]

/-- Modelled from the spec: the color network input vector, matching the
header comment `posEncode(x,y,z)=21 + normal(3) + viewDir(3) + time(1) = 28`. -/
def colorInput (s c : ℚ → ℚ) (x y z nx ny nz vx vy vz time : ℚ) : List ℚ :=
  posEncode s c POS_ENCODE_BANDS x ++ posEncode s c POS_ENCODE_BANDS y
    ++ posEncode s c POS_ENCODE_BANDS z
    ++ [nx, ny, nz] ++ [vx, vy, vz] ++ [time]

/-- Output components of the color network, from the header comment
`Output: (r, g, b) = 3`. -/
def colorOutputComponents : List String := ["r", "g", "b"]

/-! ### Shared record field layouts -/

/-- Scalar element types appearing in the shared CPU/GPU records. -/
inductive ScalarType where
  | float32
  | int32
deriving DecidableEq

/-- Bit width of each scalar type (C `float` and `int` on this platform). -/
def ScalarType.bits : ScalarType → Nat
  | .float32 => 32
  | .int32 => 32

/-- One declared field of a shared record: its name, scalar element type and
number of scalar elements. -/
structure FieldDecl where
  name : String
  type : ScalarType
  count : Nat
deriving DecidableEq

/-- Declared byte size of a record: sum over fields of element count times
element byte width. -/
def structBytes (fs : List FieldDecl) : Nat :=
  (fs.map (fun f => f.count * (f.type.bits / 8))).sum

/-- Field layout of `struct Uniforms` (two 4×4 matrices = 16 floats each, a
3×3 matrix = 9 floats, a 3-float camera position, three scalars, padding). -/
def uniformsFields : List FieldDecl :=
  [⟨"modelViewProjection", .float32, 16⟩,
   ⟨"modelView", .float32, 16⟩,
   ⟨"normalMatrix", .float32, 9⟩,
   ⟨"cameraPosition", .float32, 3⟩,
   ⟨"time", .float32, 1⟩,
   ⟨"gridSize", .float32, 1⟩,
   ⟨"gridSpacing", .float32, 1⟩,
   ⟨"_padding", .float32, 1⟩]

/-- Matrix fields of `Uniforms` with their (columns, rows) shapes; the simd
matrix types store columns first (column-major). -/
def uniformsMatrixShapes : List (String × Nat × Nat) :=
  [("modelViewProjection", 4, 4), ("modelView", 4, 4), ("normalMatrix", 3, 3)]

/-- Field layout of `struct PlayerState`. -/
def playerStateFields : List FieldDecl :=
  [⟨"position", .float32, 3⟩,
   ⟨"influenceRadius", .float32, 1⟩,
   ⟨"interactionStrength", .float32, 1⟩,
   ⟨"isInteracting", .int32, 1⟩,
   ⟨"_padding", .float32, 2⟩]

/-- Field layout of `struct ResonanceOrbGPU`. -/
def resonanceOrbFields : List FieldDecl :=
  [⟨"position", .float32, 3⟩,
   ⟨"intensity", .float32, 1⟩,
   ⟨"color", .float32, 3⟩,
   ⟨"spawnTime", .float32, 1⟩]

/-- Field layout of `struct ResonanceData`: a 5-element array of 8-scalar
orbs (40 floats), a count, the current time, padding. -/
def resonanceDataFields : List FieldDecl :=
  [⟨"orbs", .float32, 40⟩,
   ⟨"orbCount", .int32, 1⟩,
   ⟨"currentTime", .float32, 1⟩,
   ⟨"_padding", .float32, 2⟩]

/-- Field layout of `struct GridVertex`. -/
def gridVertexFields : List FieldDecl :=
  [⟨"position", .float32, 3⟩,
   ⟨"texcoord", .float32, 2⟩]

/-- All fields of the five shared CPU/GPU records, concatenated. -/
def allSharedFields : List FieldDecl :=
  uniformsFields ++ playerStateFields ++ resonanceOrbFields
    ++ resonanceDataFields ++ gridVertexFields

/-! ### Resonance data and its aggregation -/

/-- Value-level model of `struct ResonanceOrbGPU`. -/
structure ResonanceOrbGPU where
  position : ℚ × ℚ × ℚ
  intensity : ℚ
  color : ℚ × ℚ × ℚ
  spawnTime : ℚ
deriving DecidableEq

/-- Value-level model of `struct ResonanceData`: the fixed orb array is kept
as a list, `orbCount` is the C `int` field. -/
structure ResonanceData where
  orbs : List ResonanceOrbGPU
  orbCount : ℤ
  currentTime : ℚ
deriving DecidableEq

/-- Modelled from the spec: the Scene State Aggregator clamps the orb count
to `[0, MAX_RESONANCE_ORBS]` before handing data downstream. -/
def clampOrbCount (n : ℤ) : ℤ := max 0 (min n (MAX_RESONANCE_ORBS : ℤ))

/-- Modelled from the spec: the Scene State Aggregator assembles a
`ResonanceData` record from host orb state, enforcing the count invariant. -/
def aggregateResonance (orbs : List ResonanceOrbGPU) (requested : ℤ)
    (t : ℚ) : ResonanceData :=
  ⟨orbs, clampOrbCount requested, t⟩

/-- Modelled from the spec: a downstream consumer reads only the first
`orbCount` entries (and never past the fixed array bound). -/
def activeOrbs (d : ResonanceData) : List ResonanceOrbGPU :=
  (d.orbs.take d.orbCount.toNat).take MAX_RESONANCE_ORBS

/-- Modelled from the spec: everything a consumer observes of a
`ResonanceData` record — the orb count and the active entries only. -/
def consumerView (d : ResonanceData) : ℤ × List ResonanceOrbGPU :=
  (d.orbCount, activeOrbs d)

/-- A sample orb used in witness records. -/
def wOrbA : ResonanceOrbGPU := ⟨(0, 0, 0), 1, (1, 1, 1), 0⟩

/-- A second, distinct sample orb used in witness records. -/
def wOrbB : ResonanceOrbGPU := ⟨(9, 9, 9), 9, (9, 9, 9), 9⟩

/-- A witness record with `orbCount = 2` and garbage beyond index 2. -/
def wData1 : ResonanceData := ⟨[wOrbA, wOrbA, wOrbB, wOrbB, wOrbB], 2, 0⟩

/-- A witness record agreeing with `wData1` on the first 2 entries only. -/
def wData2 : ResonanceData := ⟨[wOrbA, wOrbA, wOrbA, wOrbA, wOrbA], 2, 3⟩

/-! ### Weight-buffer loading -/

/-- Configuration errors detected at load time. -/
inductive ConfigError where
  | weightCountMismatch (expected actual : Nat)
deriving DecidableEq

/-- Modelled from the spec: the Weight Store load step fails with a fatal
configuration error when the supplied buffer length does not equal the
analytically derived total for the declared topology; on success it returns
the buffer unchanged (never truncated). -/
def loadWeightBuffer (expected : Nat) (buf : List ℚ) :
    Except ConfigError (List ℚ) :=
  if buf.length = expected then Except.ok buf
  else Except.error (ConfigError.weightCountMismatch expected buf.length)

/-! ### Helper lemmas -/

/-- The positional encoding of one coordinate has `2B+1` entries. -/
theorem posEncode_length (s c : ℚ → ℚ) (B : Nat) (x : ℚ) :
    (posEncode s c B x).length = 2 * B + 1 := by
  simp only [posEncode, List.length_cons, List.length_flatMap]
  induction B with
  | zero => simp
  | succ n ih =>
      simp only [List.range_succ, List.map_append, List.sum_append] at *
      simp at ih ⊢
      omega

/-! ### Claims -/

/-- C1: the terrain weight buffer length for the topology 16 → 32 → 32 → 4
equals the analytic per-layer sum (16·32+32) + (32·32+32) + (32·4+4) = 1732,
and the declared `TERRAIN_WEIGHT_COUNT` equals exactly this value. -/
theorem terrain_weight_count_exact :
    networkParamCount terrainLayerShapes
      = (16 * 32 + 32) + (32 * 32 + 32) + (32 * 4 + 4)
    ∧ (16 * 32 + 32) + (32 * 32 + 32) + (32 * 4 + 4) = 1732
    ∧ TERRAIN_WEIGHT_COUNT = networkParamCount terrainLayerShapes
    ∧ TERRAIN_WEIGHT_COUNT = 1732 := by
  decide

/-- C2: the color weight buffer length for the topology 28 → 24 → 24 → 3
equals the analytic per-layer sum (28·24+24) + (24·24+24) + (24·3+3) = 1371,
and the declared `COLOR_WEIGHT_COUNT` equals exactly this value. -/
theorem color_weight_count_exact :
    networkParamCount colorLayerShapes
      = (28 * 24 + 24) + (24 * 24 + 24) + (24 * 3 + 3)
    ∧ (28 * 24 + 24) + (24 * 24 + 24) + (24 * 3 + 3) = 1371
    ∧ COLOR_WEIGHT_COUNT = networkParamCount colorLayerShapes
    ∧ COLOR_WEIGHT_COUNT = 1371 := by
  decide

/-- C3: with the band count fixed at `POS_ENCODE_BANDS = 3`, the positional
encoder maps any coordinate `x` to the ordered length-7 vector
`[x, s x, c x, s (2x), c (2x), s (4x), c (4x)]`, of length `2B+1`; and for
sinusoids with `s 0 = 0` and `c 0 = 1` (as sin and cos have), the encoding
of 0 is `[0, 0, 1, 0, 1, 0, 1]`. -/
theorem posEncode_spec (s c : ℚ → ℚ) (x : ℚ)
    (hs : s 0 = 0) (hc : c 0 = 1) :
    posEncode s c POS_ENCODE_BANDS x
      = [x, s x, c x, s (2 * x), c (2 * x), s (4 * x), c (4 * x)]
    ∧ (posEncode s c POS_ENCODE_BANDS x).length = 2 * POS_ENCODE_BANDS + 1
    ∧ posEncode s c POS_ENCODE_BANDS 0 = [0, 0, 1, 0, 1, 0, 1] := by
  refine ⟨?_, posEncode_length s c POS_ENCODE_BANDS x, ?_⟩
  · simp [posEncode, POS_ENCODE_BANDS, List.range_succ]
    norm_num
  · simp [posEncode, POS_ENCODE_BANDS, List.range_succ, hs, hc]

/-- Witness for C3: `posEncode_spec` applied at the constant functions
`zeroFn`, `oneFn` and the coordinate 5. -/
theorem posEncode_spec_witness :
    (zeroFn 0 = 0 ∧ oneFn 0 = 1)
    ∧ (posEncode zeroFn oneFn POS_ENCODE_BANDS 5
        = [5, zeroFn 5, oneFn 5, zeroFn (2 * 5), oneFn (2 * 5),
           zeroFn (4 * 5), oneFn (4 * 5)]
      ∧ (posEncode zeroFn oneFn POS_ENCODE_BANDS 5).length
          = 2 * POS_ENCODE_BANDS + 1
      ∧ posEncode zeroFn oneFn POS_ENCODE_BANDS 0 = [0, 0, 1, 0, 1, 0, 1]) :=
  ⟨⟨rfl, rfl⟩, posEncode_spec zeroFn oneFn 5 rfl rfl⟩

/-- C4: the terrain network input vector is the 7-element encoding of `x`,
then the 7-element encoding of `z`, then time, then player influence — 16
elements in total, equal to `TERRAIN_INPUT_SIZE` — and the layer topology is
16 → 32 → 32 → 4 with output components (height, normalX, normalY, normalZ). -/
theorem terrain_input_and_topology (s c : ℚ → ℚ) (x z t p : ℚ) :
    (terrainInput s c x z t p).length = TERRAIN_INPUT_SIZE
    ∧ terrainInput s c x z t p
        = posEncode s c POS_ENCODE_BANDS x
            ++ (posEncode s c POS_ENCODE_BANDS z ++ ([t] ++ [p]))
    ∧ (posEncode s c POS_ENCODE_BANDS x).length = 7
    ∧ [TERRAIN_INPUT_SIZE, TERRAIN_HIDDEN1_SIZE, TERRAIN_HIDDEN2_SIZE,
        TERRAIN_OUTPUT_SIZE] = [16, 32, 32, 4]
    ∧ terrainOutputComponents = ["height", "normalX", "normalY", "normalZ"]
    ∧ terrainOutputComponents.length = TERRAIN_OUTPUT_SIZE := by
  refine ⟨?_, ?_, ?_, by decide, by decide, by decide⟩
  · simp [terrainInput, posEncode_length, TERRAIN_INPUT_SIZE, POS_ENCODE_BANDS]
  · simp [terrainInput, List.append_assoc]
  · simp [posEncode_length, POS_ENCODE_BANDS]

/-- C5: the color network input vector is the 7-element encodings of `x`,
`y`, `z`, then the 3-element normal, the 3-element view direction, and time —
28 elements in total, equal to `COLOR_INPUT_SIZE` — and the layer topology is
28 → 24 → 24 → 3 with output components (r, g, b). -/
theorem color_input_and_topology (s c : ℚ → ℚ)
    (x y z nx ny nz vx vy vz t : ℚ) :
    (colorInput s c x y z nx ny nz vx vy vz t).length = COLOR_INPUT_SIZE
    ∧ colorInput s c x y z nx ny nz vx vy vz t
        = posEncode s c POS_ENCODE_BANDS x
            ++ (posEncode s c POS_ENCODE_BANDS y
              ++ (posEncode s c POS_ENCODE_BANDS z
                ++ ([nx, ny, nz] ++ ([vx, vy, vz] ++ [t]))))
    ∧ [COLOR_INPUT_SIZE, COLOR_HIDDEN1_SIZE, COLOR_HIDDEN2_SIZE,
        COLOR_OUTPUT_SIZE] = [28, 24, 24, 3]
    ∧ colorOutputComponents = ["r", "g", "b"]
    ∧ colorOutputComponents.length = COLOR_OUTPUT_SIZE := by
  refine ⟨?_, ?_, by decide, by decide, by decide⟩
  · simp [colorInput, posEncode_length, COLOR_INPUT_SIZE, POS_ENCODE_BANDS]
  · simp [colorInput, List.append_assoc]

/-- C6: the aggregated orb count always lies in `[0, MAX_RESONANCE_ORBS]`
(requests above the maximum are clamped), and any two records agreeing on
`orbCount` and on the entries below `orbCount` are indistinguishable to a
consumer — entries at index ≥ `orbCount` are never read. -/
theorem resonance_count_invariant (l : List ResonanceOrbGPU) (n : ℤ) (t : ℚ)
    (d d2 : ResonanceData)
    (hcount : d.orbCount = d2.orbCount)
    (htake : d.orbs.take d.orbCount.toNat = d2.orbs.take d2.orbCount.toNat) :
    (0 ≤ (aggregateResonance l n t).orbCount
      ∧ (aggregateResonance l n t).orbCount ≤ (MAX_RESONANCE_ORBS : ℤ))
    ∧ consumerView d = consumerView d2 := by
  refine ⟨⟨?_, ?_⟩, ?_⟩
  · exact le_max_left 0 _
  · exact max_le (by simp [MAX_RESONANCE_ORBS]) (min_le_right _ _)
  · simp only [consumerView, activeOrbs]
    rw [htake, hcount]

/-- Witness for C6: `resonance_count_invariant` applied at a requested count
of 7 (above the maximum) and at two concrete records that agree on the first
2 entries but differ beyond index 2. -/
theorem resonance_count_invariant_witness :
    (wData1.orbCount = wData2.orbCount
      ∧ wData1.orbs.take wData1.orbCount.toNat
          = wData2.orbs.take wData2.orbCount.toNat)
    ∧ ((0 ≤ (aggregateResonance wData1.orbs 7 0).orbCount
        ∧ (aggregateResonance wData1.orbs 7 0).orbCount
            ≤ (MAX_RESONANCE_ORBS : ℤ))
      ∧ consumerView wData1 = consumerView wData2) :=
  ⟨⟨rfl, by decide⟩,
   resonance_count_invariant wData1.orbs 7 0 wData1 wData2 rfl (by decide)⟩

/-- C7: the binding contract maps buffer indices 0–5 to vertices, uniforms,
terrain weights, color weights, player state and resonance data; vertex
attribute slot 0 is the 3-float position and slot 1 the 2-float texcoord,
matching the `GridVertex` layout. -/
theorem binding_contract :
    BufferIndexVertices = 0 ∧ BufferIndexUniforms = 1
    ∧ BufferIndexTerrainWeights = 2 ∧ BufferIndexColorWeights = 3
    ∧ BufferIndexPlayerState = 4 ∧ BufferIndexResonance = 5
    ∧ VertexAttributePosition = 0 ∧ VertexAttributeTexcoord = 1
    ∧ gridVertexFields
        = [⟨"position", ScalarType.float32, 3⟩,
           ⟨"texcoord", ScalarType.float32, 2⟩] := by
  decide

/-- C8 counterexample: it is not the case that every field of the shared
records has scalar type float32 — `PlayerState.isInteracting` and
`ResonanceData.orbCount` are declared `int`. -/
theorem shared_fields_not_all_float32 :
    ¬ (∀ f ∈ allSharedFields, f.type = ScalarType.float32) := by
  decide

/-- C8 (amended): every scalar field of the shared records is 32 bits wide;
all are float32 except the two integer fields `PlayerState.isInteracting`
and `ResonanceData.orbCount`, which are 32-bit ints; the `Uniforms` matrices
are column-major 4×4, 4×4 and 3×3, with element counts matching their
shapes. -/
theorem shared_fields_widths :
    (∀ f ∈ allSharedFields, f.type.bits = 32)
    ∧ (∀ f ∈ allSharedFields,
        f.type = ScalarType.float32
        ∨ ((f.name = "isInteracting" ∨ f.name = "orbCount")
            ∧ f.type = ScalarType.int32))
    ∧ uniformsMatrixShapes
        = [("modelViewProjection", 4, 4), ("modelView", 4, 4),
           ("normalMatrix", 3, 3)]
    ∧ (uniformsFields.take 3).map (fun f => f.count) = [16, 16, 9] := by
  decide

/-- C9: loading a buffer of length 1733 against the declared terrain total
of 1732 fails with a configuration error naming both lengths; the result is
never a success, so nothing is truncated and no forward evaluation proceeds. -/
theorem load_rejects_length_mismatch (buf : List ℚ)
    (h : buf.length = 1733) :
    loadWeightBuffer TERRAIN_WEIGHT_COUNT buf
      = Except.error
          (ConfigError.weightCountMismatch TERRAIN_WEIGHT_COUNT 1733)
    ∧ (loadWeightBuffer TERRAIN_WEIGHT_COUNT buf).isOk = false := by
  have hne : ¬ buf.length = TERRAIN_WEIGHT_COUNT := by
    rw [h]; decide
  have he : loadWeightBuffer TERRAIN_WEIGHT_COUNT buf
      = Except.error
          (ConfigError.weightCountMismatch TERRAIN_WEIGHT_COUNT 1733) := by
    simp only [loadWeightBuffer]
    rw [if_neg hne, h]
  exact ⟨he, by rw [he]; rfl⟩

/-- Witness for C9: `load_rejects_length_mismatch` applied to the concrete
buffer of 1733 zeros. -/
theorem load_rejects_length_mismatch_witness :
    (List.replicate 1733 (0 : ℚ)).length = 1733
    ∧ (loadWeightBuffer TERRAIN_WEIGHT_COUNT (List.replicate 1733 (0 : ℚ))
        = Except.error
            (ConfigError.weightCountMismatch TERRAIN_WEIGHT_COUNT 1733)
      ∧ (loadWeightBuffer TERRAIN_WEIGHT_COUNT
            (List.replicate 1733 (0 : ℚ))).isOk = false) :=
  ⟨by simp only [List.length_replicate],
   load_rejects_length_mismatch (List.replicate 1733 (0 : ℚ))
     (by simp only [List.length_replicate])⟩

/-- C10: each per-frame record's declared scalar widths sum to a multiple of
16 bytes, and each ends in explicit trailing padding: `Uniforms` with one
padding float after its three scalars, `PlayerState` with two padding floats
after its scalar/flag fields, and `ResonanceData` with two padding floats
after `orbCount` and `currentTime`. -/
theorem per_frame_records_padding :
    structBytes uniformsFields % 16 = 0
    ∧ structBytes playerStateFields % 16 = 0
    ∧ structBytes resonanceDataFields % 16 = 0
    ∧ uniformsFields.drop 4
        = [⟨"time", ScalarType.float32, 1⟩,
           ⟨"gridSize", ScalarType.float32, 1⟩,
           ⟨"gridSpacing", ScalarType.float32, 1⟩,
           ⟨"_padding", ScalarType.float32, 1⟩]
    ∧ playerStateFields.getLast? = some ⟨"_padding", ScalarType.float32, 2⟩
    ∧ resonanceDataFields.drop 1
        = [⟨"orbCount", ScalarType.int32, 1⟩,
           ⟨"currentTime", ScalarType.float32, 1⟩,
           ⟨"_padding", ScalarType.float32, 2⟩] := by
  decide

end NeuralDrift
